import Mathlib

/-!
Shallow embedding of `src/api/repos/releases.rs`: the releases handler of a
typed GitHub client, with its two operation builders (`ListReleasesBuilder`,
`CreateReleaseBuilder`), their chained setters, serde-style serialization
(fields serialized in declaration order, `Option` fields skipped when `none`
via `skip_serializing_if = "Option::is_none"`, the `handler` field skipped),
and the terminal `send` operations that format the request path and delegate
to the transport.

Machine integers are modelled as `Nat`: `per_page` is a `u8` and `page` a
`u32` in the source; no arithmetic is performed on either, they are only
stored and serialized, so overflow never matters.
-/

namespace Releases

/-- A serialized JSON-like parameter value. `null` is included so that the
never-serialize-null invariant is a non-vacuous statement. -/
inductive Value where
  | str (s : String)
  | num (n : Nat)
  | bool (b : Bool)
  | null
deriving DecidableEq, Repr

/-- HTTP verbs reachable from this layer: the read-only fetch path and the
body-bearing mutating path. -/
inductive Verb where
  | GET
  | POST
deriving DecidableEq, Repr

/-- The parent repository identity: `RepoHandler` holds `owner` and `repo`
(the fields read by both `send` implementations via `self.handler.parent`). -/
structure RepoHandler where
  owner : String
  repo : String
deriving DecidableEq, Repr

/-- Handler for the releases API; holds a reference to the parent
`RepoHandler` (source lines 8-10). -/
structure ReleasesHandler where
  parent : RepoHandler
deriving DecidableEq, Repr

/-- Modelled from the spec: the external Transport collaborator (the
`crab` field's client, not part of `src/`). It performs the network call
given a verb, a path and a serialized parameter bag, and returns either a
deserialized typed value or a typed error. `get(path, params)` is the
"GET with optional parameter bag" read path; the "equivalent mutating call
for creation" is `post`. -/
structure Transport (ε ρ : Type) where
  call : Verb → String → List (String × Value) → Except ε ρ

/-- Modelled from the spec: the read-only fetch entry point of Transport. -/
def Transport.get (t : Transport ε ρ) (path : String)
    (params : List (String × Value)) : Except ε ρ :=
  t.call Verb.GET path params

/-- Modelled from the spec: the body-bearing mutating entry point of
Transport. -/
def Transport.post (t : Transport ε ρ) (path : String)
    (params : List (String × Value)) : Except ε ρ :=
  t.call Verb.POST path params

/-- A probing transport that records verb, path and parameter bag of the
single call it receives, so theorems can observe exactly what a `send`
hands to Transport. -/
def probe : Transport (Verb × String × List (String × Value)) ρ :=
  { call := fun v p ps => Except.error (v, p, ps) }

/-- Placeholder for the out-of-scope `models::repos::Release` schema. -/
structure Release where
  id : Nat
deriving DecidableEq, Repr

/-- Placeholder for the paginated result wrapper `Page<T>`: the current
page's items plus next-page metadata. -/
structure Page (α : Type) where
  items : List α
  next : Option String
deriving DecidableEq, Repr

/-- Serde helper: a `skip_serializing_if = "Option::is_none"` field
contributes its named entry when present and nothing at all when absent. -/
def optField (n : String) : Option Value → List (String × Value)
  | some v => [(n, v)]
  | none => []

/-- Builder for listing releases (source lines 67-75): the `handler` field
is `#[serde(skip)]`; `per_page : Option<u8>` and `page : Option<u32>` are
skipped when `None`. -/
structure ListReleasesBuilder where
  handler : ReleasesHandler
  per_page : Option Nat
  page : Option Nat
deriving DecidableEq, Repr

/-- `ReleasesHandler::list` → `ListReleasesBuilder::new`: all optional
fields start absent (source lines 78-84). -/
def ReleasesHandler.list (h : ReleasesHandler) : ListReleasesBuilder :=
  { handler := h, per_page := none, page := none }

/-- Setter `per_page` (source lines 87-90); named `set_per_page` because the
field projection already takes the source name. -/
def ListReleasesBuilder.set_per_page (b : ListReleasesBuilder) (v : Nat) :
    ListReleasesBuilder :=
  { b with per_page := some v }

/-- Setter `page` (source lines 93-96). -/
def ListReleasesBuilder.set_page (b : ListReleasesBuilder) (v : Nat) :
    ListReleasesBuilder :=
  { b with page := some v }

/-- Serde-derived serialization of `ListReleasesBuilder`: declaration order,
`handler` skipped, absent options omitted. -/
def ListReleasesBuilder.serialize (b : ListReleasesBuilder) :
    List (String × Value) :=
  optField "per_page" (b.per_page.map Value.num)
    ++ optField "page" (b.page.map Value.num)

/-- `ListReleasesBuilder::send` (source lines 99-106): formats
`/repos/{owner}/{repo}/releases` from the parent identity and delegates to
Transport's `get` with the serialized builder as the parameter bag. -/
def ListReleasesBuilder.send (b : ListReleasesBuilder)
    (t : Transport ε (Page Release)) : Except ε (Page Release) :=
  t.get ("/repos/" ++ b.handler.parent.owner ++ "/" ++ b.handler.parent.repo
      ++ "/releases")
    b.serialize

/-- Builder for creating a release (source lines 114-129): `handler` is
`#[serde(skip)]`, `tag_name` is required and always serialized, the five
optional fields are skipped when `None`. -/
structure CreateReleaseBuilder where
  handler : ReleasesHandler
  tag_name : String
  target_commitish : Option String
  name : Option String
  body : Option String
  draft : Option Bool
  prerelease : Option Bool
deriving DecidableEq, Repr

/-- `ReleasesHandler::create` → `CreateReleaseBuilder::new` (source lines
57-59 and 132-142): `tag_name` fixed at construction, all optional fields
absent. -/
def ReleasesHandler.create (h : ReleasesHandler) (tag_name : String) :
    CreateReleaseBuilder :=
  { handler := h, tag_name := tag_name, target_commitish := none,
    name := none, body := none, draft := none, prerelease := none }

/-- Setter `target_commitish` (source lines 148-151). -/
def CreateReleaseBuilder.set_target_commitish (b : CreateReleaseBuilder)
    (v : String) : CreateReleaseBuilder :=
  { b with target_commitish := some v }

/-- Setter `name` (source lines 154-157). -/
def CreateReleaseBuilder.set_name (b : CreateReleaseBuilder) (v : String) :
    CreateReleaseBuilder :=
  { b with name := some v }

/-- Setter `body` (source lines 160-163). -/
def CreateReleaseBuilder.set_body (b : CreateReleaseBuilder) (v : String) :
    CreateReleaseBuilder :=
  { b with body := some v }

/-- Setter `draft` (source lines 166-169). -/
def CreateReleaseBuilder.set_draft (b : CreateReleaseBuilder) (v : Bool) :
    CreateReleaseBuilder :=
  { b with draft := some v }

/-- Setter `prerelease` (source lines 172-175). -/
def CreateReleaseBuilder.set_prerelease (b : CreateReleaseBuilder)
    (v : Bool) : CreateReleaseBuilder :=
  { b with prerelease := some v }

/-- Serde-derived serialization of `CreateReleaseBuilder`: declaration
order, `handler` skipped, `tag_name` always present, absent options
omitted. -/
def CreateReleaseBuilder.serialize (b : CreateReleaseBuilder) :
    List (String × Value) :=
  [("tag_name", Value.str b.tag_name)]
    ++ optField "target_commitish" (b.target_commitish.map Value.str)
    ++ optField "name" (b.name.map Value.str)
    ++ optField "body" (b.body.map Value.str)
    ++ optField "draft" (b.draft.map Value.bool)
    ++ optField "prerelease" (b.prerelease.map Value.bool)

/-- `CreateReleaseBuilder::send` (source lines 178-185): formats
`/repos/{owner}/{repo}/releases` and delegates to Transport's `get` — the
source calls `self.handler.parent.crab.get(url, Some(&self))`, the same
read-only entry point the list operation uses, not `post`. -/
def CreateReleaseBuilder.send (b : CreateReleaseBuilder)
    (t : Transport ε Release) : Except ε Release :=
  t.get ("/repos/" ++ b.handler.parent.owner ++ "/" ++ b.handler.parent.repo
      ++ "/releases")
    b.serialize

/-- Apply an optional setter argument: leave the builder untouched when the
argument is absent, apply the setter when present. Used to quantify over
all set/absent combinations. -/
def applyOpt {β α : Type} (set : β → α → β) (v : Option α) (b : β) : β :=
  match v with
  | none => b
  | some x => set b x

/-- A list builder configured with any combination of set/absent optional
fields, built through the actual setters. -/
def listWith (h : ReleasesHandler) (pp pg : Option Nat) :
    ListReleasesBuilder :=
  applyOpt ListReleasesBuilder.set_page pg
    (applyOpt ListReleasesBuilder.set_per_page pp h.list)

/-- A create builder configured with any combination of set/absent optional
fields, built through the actual setters. -/
def createWith (h : ReleasesHandler) (tag : String)
    (tc nm bd : Option String) (df pr : Option Bool) :
    CreateReleaseBuilder :=
  applyOpt CreateReleaseBuilder.set_prerelease pr
    (applyOpt CreateReleaseBuilder.set_draft df
      (applyOpt CreateReleaseBuilder.set_body bd
        (applyOpt CreateReleaseBuilder.set_name nm
          (applyOpt CreateReleaseBuilder.set_target_commitish tc
            (h.create tag)))))

/-- C4: Default-absent at construction: a `list()` builder with no setters
serializes an empty parameter bag (neither `per_page` nor `page` present),
and a `create(tag)` builder with no further setters serializes a body
containing only `tag_name` with the given tag value. -/
theorem default_absent (h : ReleasesHandler) (tag : String) :
    (h.list).serialize = []
      ∧ (h.create tag).serialize = [("tag_name", Value.str tag)] :=
  ⟨rfl, rfl⟩

/-- C4 witness at concrete inputs. -/
theorem default_absent_witness :
    ((ReleasesHandler.mk (RepoHandler.mk "owner" "repo")).list).serialize = []
      ∧ ((ReleasesHandler.mk (RepoHandler.mk "owner" "repo")).create
            "v1.0.0").serialize = [("tag_name", Value.str "v1.0.0")] :=
  default_absent (ReleasesHandler.mk (RepoHandler.mk "owner" "repo")) "v1.0.0"

/-- C5: Path formatting: for every parent identity, both the list send and
the create send hand Transport the path obtained by substituting the
parent's owner and repo into `/repos/{owner}/{repo}/releases`; in
particular for owner "owner" and repo "repo" both target
"/repos/owner/repo/releases". -/
theorem path_formatting :
    (∀ (b : ListReleasesBuilder),
        b.send probe = Except.error (Verb.GET,
          "/repos/" ++ b.handler.parent.owner ++ "/" ++ b.handler.parent.repo
            ++ "/releases",
          b.serialize))
  ∧ (∀ (b : CreateReleaseBuilder),
        b.send probe = Except.error (Verb.GET,
          "/repos/" ++ b.handler.parent.owner ++ "/" ++ b.handler.parent.repo
            ++ "/releases",
          b.serialize))
  ∧ ((ReleasesHandler.mk (RepoHandler.mk "owner" "repo")).list.send probe
        = Except.error (Verb.GET, "/repos/owner/repo/releases", []))
  ∧ (((ReleasesHandler.mk (RepoHandler.mk "owner" "repo")).create
        "v1.0.0").send probe
        = Except.error (Verb.GET, "/repos/owner/repo/releases",
            [("tag_name", Value.str "v1.0.0")])) :=
  ⟨fun _ => rfl, fun _ => rfl, rfl, rfl⟩

/-- C1: evaluating the code at a concrete configured create builder: the
terminal send routes the creation request through Transport's read-only
GET path (the source calls `crab.get(url, Some(&self))`), and GET is not
the body-bearing mutating verb — contradicting the claim that create's
send delegates to the mutating operation. -/
theorem create_send_uses_get :
    ((ReleasesHandler.mk (RepoHandler.mk "owner" "repo")).create
        "v1.0.0").send probe
      = Except.error (Verb.GET, "/repos/owner/repo/releases",
          [("tag_name", Value.str "v1.0.0")])
    ∧ Verb.GET ≠ Verb.POST :=
  ⟨rfl, by decide⟩

/-- C10: verbatim path interpolation: for every owner and repo string the
computed request path is the literal concatenation
"/repos/" ++ owner ++ "/" ++ repo ++ "/releases" with no escaping, for
both list and create; consequently an owner containing a slash collides
with a differently-split identity (owner "a/b" with repo "c" routes to
the same path as owner "a" with repo "b/c"). -/
theorem verbatim_path_interpolation :
    (∀ owner repo : String,
        (ReleasesHandler.mk (RepoHandler.mk owner repo)).list.send probe
            = Except.error (Verb.GET,
                "/repos/" ++ owner ++ "/" ++ repo ++ "/releases", [])
      ∧ ((ReleasesHandler.mk (RepoHandler.mk owner repo)).create
            "t").send probe
            = Except.error (Verb.GET,
                "/repos/" ++ owner ++ "/" ++ repo ++ "/releases",
                [("tag_name", Value.str "t")]))
  ∧ (ReleasesHandler.mk (RepoHandler.mk "a/b" "c")).list.send probe
      = (ReleasesHandler.mk (RepoHandler.mk "a" "b/c")).list.send probe :=
  ⟨fun _ _ => ⟨rfl, rfl⟩, rfl⟩

/-- C7: Error pass-through: each send returns exactly the Transport's
result for the issued request — a transport that fails with a typed error
makes send return exactly that error, a transport that succeeds with a
typed value (a Page of releases for list, a single Release for create)
makes send return exactly that value; no retry, recovery or swallowing
happens in this layer. -/
theorem error_pass_through {ε : Type} :
    (∀ (t : Transport ε (Page Release)) (b : ListReleasesBuilder),
        b.send t = t.call Verb.GET
          ("/repos/" ++ b.handler.parent.owner ++ "/"
            ++ b.handler.parent.repo ++ "/releases") b.serialize)
  ∧ (∀ (t : Transport ε Release) (b : CreateReleaseBuilder),
        b.send t = t.call Verb.GET
          ("/repos/" ++ b.handler.parent.owner ++ "/"
            ++ b.handler.parent.repo ++ "/releases") b.serialize)
  ∧ (∀ (e : ε) (b : ListReleasesBuilder),
        b.send ({ call := fun _ _ _ => Except.error e } :
            Transport ε (Page Release)) = Except.error e)
  ∧ (∀ (p : Page Release) (b : ListReleasesBuilder),
        b.send ({ call := fun _ _ _ => Except.ok p } :
            Transport ε (Page Release)) = Except.ok p)
  ∧ (∀ (e : ε) (b : CreateReleaseBuilder),
        b.send ({ call := fun _ _ _ => Except.error e } :
            Transport ε Release) = Except.error e)
  ∧ (∀ (r : Release) (b : CreateReleaseBuilder),
        b.send ({ call := fun _ _ _ => Except.ok r } :
            Transport ε Release) = Except.ok r) :=
  ⟨fun _ _ => rfl, fun _ _ => rfl, fun _ _ => rfl, fun _ _ => rfl,
    fun _ _ => rfl, fun _ _ => rfl⟩

/-- C2: Omission property: for every combination of set/absent optional
fields of both builders, the serialized parameter bag contains exactly the
set fields under their declared names (plus the always-present `tag_name`
for create) and no others; an absent optional field contributes nothing,
and in particular no field is ever serialized as null. -/
theorem omission_property :
    (∀ (h : ReleasesHandler) (pp pg : Option Nat),
        (listWith h pp pg).serialize
            = optField "per_page" (pp.map Value.num)
              ++ optField "page" (pg.map Value.num)
      ∧ ∀ k : String, (k, Value.null) ∉ (listWith h pp pg).serialize)
  ∧ (∀ (h : ReleasesHandler) (tag : String) (tc nm bd : Option String)
        (df pr : Option Bool),
        (createWith h tag tc nm bd df pr).serialize
            = [("tag_name", Value.str tag)]
              ++ optField "target_commitish" (tc.map Value.str)
              ++ optField "name" (nm.map Value.str)
              ++ optField "body" (bd.map Value.str)
              ++ optField "draft" (df.map Value.bool)
              ++ optField "prerelease" (pr.map Value.bool)
      ∧ ∀ k : String, (k, Value.null) ∉
          (createWith h tag tc nm bd df pr).serialize) := by
  constructor
  · intro h pp pg
    cases pp <;> cases pg <;>
      simp [listWith, applyOpt, ListReleasesBuilder.serialize,
        ListReleasesBuilder.set_per_page, ListReleasesBuilder.set_page,
        ReleasesHandler.list, optField]
  · intro h tag tc nm bd df pr
    cases tc <;> cases nm <;> cases bd <;> cases df <;> cases pr <;>
      simp [createWith, applyOpt, CreateReleaseBuilder.serialize,
        CreateReleaseBuilder.set_target_commitish,
        CreateReleaseBuilder.set_name, CreateReleaseBuilder.set_body,
        CreateReleaseBuilder.set_draft, CreateReleaseBuilder.set_prerelease,
        ReleasesHandler.create, optField]

/-- C3: Last-set-wins: for every builder and settable field, applying the
field's setter with v1 and then v2 leaves the builder holding `some v2`
for that field, and the serialized bag carries v2 under the field's
declared name (the other fields serializing as they stand). -/
theorem last_set_wins :
    (∀ (b : ListReleasesBuilder) (v1 v2 : Nat),
        ((b.set_per_page v1).set_per_page v2).per_page = some v2
      ∧ ((b.set_per_page v1).set_per_page v2).serialize
          = ("per_page", Value.num v2)
            :: optField "page" (b.page.map Value.num))
  ∧ (∀ (b : ListReleasesBuilder) (v1 v2 : Nat),
        ((b.set_page v1).set_page v2).page = some v2
      ∧ ((b.set_page v1).set_page v2).serialize
          = optField "per_page" (b.per_page.map Value.num)
            ++ [("page", Value.num v2)])
  ∧ (∀ (b : CreateReleaseBuilder) (v1 v2 : String),
        ((b.set_target_commitish v1).set_target_commitish v2).target_commitish
            = some v2
      ∧ ((b.set_target_commitish v1).set_target_commitish v2).serialize
          = [("tag_name", Value.str b.tag_name)]
            ++ [("target_commitish", Value.str v2)]
            ++ optField "name" (b.name.map Value.str)
            ++ optField "body" (b.body.map Value.str)
            ++ optField "draft" (b.draft.map Value.bool)
            ++ optField "prerelease" (b.prerelease.map Value.bool))
  ∧ (∀ (b : CreateReleaseBuilder) (v1 v2 : String),
        ((b.set_name v1).set_name v2).name = some v2
      ∧ ((b.set_name v1).set_name v2).serialize
          = [("tag_name", Value.str b.tag_name)]
            ++ optField "target_commitish" (b.target_commitish.map Value.str)
            ++ [("name", Value.str v2)]
            ++ optField "body" (b.body.map Value.str)
            ++ optField "draft" (b.draft.map Value.bool)
            ++ optField "prerelease" (b.prerelease.map Value.bool))
  ∧ (∀ (b : CreateReleaseBuilder) (v1 v2 : String),
        ((b.set_body v1).set_body v2).body = some v2
      ∧ ((b.set_body v1).set_body v2).serialize
          = [("tag_name", Value.str b.tag_name)]
            ++ optField "target_commitish" (b.target_commitish.map Value.str)
            ++ optField "name" (b.name.map Value.str)
            ++ [("body", Value.str v2)]
            ++ optField "draft" (b.draft.map Value.bool)
            ++ optField "prerelease" (b.prerelease.map Value.bool))
  ∧ (∀ (b : CreateReleaseBuilder) (v1 v2 : Bool),
        ((b.set_draft v1).set_draft v2).draft = some v2
      ∧ ((b.set_draft v1).set_draft v2).serialize
          = [("tag_name", Value.str b.tag_name)]
            ++ optField "target_commitish" (b.target_commitish.map Value.str)
            ++ optField "name" (b.name.map Value.str)
            ++ optField "body" (b.body.map Value.str)
            ++ [("draft", Value.bool v2)]
            ++ optField "prerelease" (b.prerelease.map Value.bool))
  ∧ (∀ (b : CreateReleaseBuilder) (v1 v2 : Bool),
        ((b.set_prerelease v1).set_prerelease v2).prerelease = some v2
      ∧ ((b.set_prerelease v1).set_prerelease v2).serialize
          = [("tag_name", Value.str b.tag_name)]
            ++ optField "target_commitish" (b.target_commitish.map Value.str)
            ++ optField "name" (b.name.map Value.str)
            ++ optField "body" (b.body.map Value.str)
            ++ optField "draft" (b.draft.map Value.bool)
            ++ [("prerelease", Value.bool v2)]) :=
  ⟨fun _ _ _ => ⟨rfl, rfl⟩, fun _ _ _ => ⟨rfl, rfl⟩, fun _ _ _ => ⟨rfl, rfl⟩,
    fun _ _ _ => ⟨rfl, rfl⟩, fun _ _ _ => ⟨rfl, rfl⟩, fun _ _ _ => ⟨rfl, rfl⟩,
    fun _ _ _ => ⟨rfl, rfl⟩⟩

/-- C6: Setter frame property: every setter of both builders stores only
its own field as present with the given value and returns a builder whose
every other field is unchanged (and, being a pure function into the
builder type, performs no I/O and no validation). -/
theorem setter_frame :
    (∀ (b : ListReleasesBuilder) (v : Nat),
        (b.set_per_page v).per_page = some v
      ∧ (b.set_per_page v).handler = b.handler
      ∧ (b.set_per_page v).page = b.page)
  ∧ (∀ (b : ListReleasesBuilder) (v : Nat),
        (b.set_page v).page = some v
      ∧ (b.set_page v).handler = b.handler
      ∧ (b.set_page v).per_page = b.per_page)
  ∧ (∀ (b : CreateReleaseBuilder) (v : String),
        (b.set_target_commitish v).target_commitish = some v
      ∧ (b.set_target_commitish v).handler = b.handler
      ∧ (b.set_target_commitish v).tag_name = b.tag_name
      ∧ (b.set_target_commitish v).name = b.name
      ∧ (b.set_target_commitish v).body = b.body
      ∧ (b.set_target_commitish v).draft = b.draft
      ∧ (b.set_target_commitish v).prerelease = b.prerelease)
  ∧ (∀ (b : CreateReleaseBuilder) (v : String),
        (b.set_name v).name = some v
      ∧ (b.set_name v).handler = b.handler
      ∧ (b.set_name v).tag_name = b.tag_name
      ∧ (b.set_name v).target_commitish = b.target_commitish
      ∧ (b.set_name v).body = b.body
      ∧ (b.set_name v).draft = b.draft
      ∧ (b.set_name v).prerelease = b.prerelease)
  ∧ (∀ (b : CreateReleaseBuilder) (v : String),
        (b.set_body v).body = some v
      ∧ (b.set_body v).handler = b.handler
      ∧ (b.set_body v).tag_name = b.tag_name
      ∧ (b.set_body v).target_commitish = b.target_commitish
      ∧ (b.set_body v).name = b.name
      ∧ (b.set_body v).draft = b.draft
      ∧ (b.set_body v).prerelease = b.prerelease)
  ∧ (∀ (b : CreateReleaseBuilder) (v : Bool),
        (b.set_draft v).draft = some v
      ∧ (b.set_draft v).handler = b.handler
      ∧ (b.set_draft v).tag_name = b.tag_name
      ∧ (b.set_draft v).target_commitish = b.target_commitish
      ∧ (b.set_draft v).name = b.name
      ∧ (b.set_draft v).body = b.body
      ∧ (b.set_draft v).prerelease = b.prerelease)
  ∧ (∀ (b : CreateReleaseBuilder) (v : Bool),
        (b.set_prerelease v).prerelease = some v
      ∧ (b.set_prerelease v).handler = b.handler
      ∧ (b.set_prerelease v).tag_name = b.tag_name
      ∧ (b.set_prerelease v).target_commitish = b.target_commitish
      ∧ (b.set_prerelease v).name = b.name
      ∧ (b.set_prerelease v).body = b.body
      ∧ (b.set_prerelease v).draft = b.draft) :=
  ⟨fun _ _ => ⟨rfl, rfl, rfl⟩,
    fun _ _ => ⟨rfl, rfl, rfl⟩,
    fun _ _ => ⟨rfl, rfl, rfl, rfl, rfl, rfl, rfl⟩,
    fun _ _ => ⟨rfl, rfl, rfl, rfl, rfl, rfl, rfl⟩,
    fun _ _ => ⟨rfl, rfl, rfl, rfl, rfl, rfl, rfl⟩,
    fun _ _ => ⟨rfl, rfl, rfl, rfl, rfl, rfl, rfl⟩,
    fun _ _ => ⟨rfl, rfl, rfl, rfl, rfl, rfl, rfl⟩⟩

/-- C8: Required-field invariant: `tag_name` is fixed at construction and
preserved by every setter of the create builder; a builder configured by
any combination of setter applications still holds the construction-time
tag, and its serialized body carries that tag under the name
"tag_name". -/
theorem tag_name_fixed :
    (∀ (h : ReleasesHandler) (tag : String), (h.create tag).tag_name = tag)
  ∧ (∀ (b : CreateReleaseBuilder) (v : String),
        (b.set_target_commitish v).tag_name = b.tag_name)
  ∧ (∀ (b : CreateReleaseBuilder) (v : String),
        (b.set_name v).tag_name = b.tag_name)
  ∧ (∀ (b : CreateReleaseBuilder) (v : String),
        (b.set_body v).tag_name = b.tag_name)
  ∧ (∀ (b : CreateReleaseBuilder) (v : Bool),
        (b.set_draft v).tag_name = b.tag_name)
  ∧ (∀ (b : CreateReleaseBuilder) (v : Bool),
        (b.set_prerelease v).tag_name = b.tag_name)
  ∧ (∀ (h : ReleasesHandler) (tag : String) (tc nm bd : Option String)
        (df pr : Option Bool),
        (createWith h tag tc nm bd df pr).tag_name = tag
      ∧ ("tag_name", Value.str tag)
          ∈ (createWith h tag tc nm bd df pr).serialize) := by
  refine ⟨fun _ _ => rfl, fun _ _ => rfl, fun _ _ => rfl, fun _ _ => rfl,
    fun _ _ => rfl, fun _ _ => rfl, ?_⟩
  intro h tag tc nm bd df pr
  cases tc <;> cases nm <;> cases bd <;> cases df <;> cases pr <;>
    simp [createWith, applyOpt, CreateReleaseBuilder.serialize,
      CreateReleaseBuilder.set_target_commitish,
      CreateReleaseBuilder.set_name, CreateReleaseBuilder.set_body,
      CreateReleaseBuilder.set_draft, CreateReleaseBuilder.set_prerelease,
      ReleasesHandler.create, optField]

/-- C9: No local validation: create accepts the empty string as tag_name,
holds it, serializes it and proceeds to Transport; per_page accepts every
8-bit value, including any value above the documented maximum of 100, and
stores and serializes it verbatim without clamping, the send proceeding to
Transport with that value. -/
theorem no_local_validation (v : Nat) (hv1 : 100 < v) (hv2 : v ≤ 255) :
    (∀ (h : ReleasesHandler),
        (h.create "").tag_name = ""
      ∧ (h.create "").serialize = [("tag_name", Value.str "")]
      ∧ (h.create "").send probe
          = Except.error (Verb.GET,
              "/repos/" ++ h.parent.owner ++ "/" ++ h.parent.repo
                ++ "/releases",
              [("tag_name", Value.str "")]))
  ∧ (∀ (b : ListReleasesBuilder),
        (b.set_per_page v).per_page = some v
      ∧ (b.set_per_page v).serialize
          = ("per_page", Value.num v)
            :: optField "page" (b.page.map Value.num)
      ∧ (b.set_per_page v).send probe
          = Except.error (Verb.GET,
              "/repos/" ++ b.handler.parent.owner ++ "/"
                ++ b.handler.parent.repo ++ "/releases",
              ("per_page", Value.num v)
                :: optField "page" (b.page.map Value.num))) :=
  ⟨fun _ => ⟨rfl, rfl, rfl⟩, fun _ => ⟨rfl, rfl, rfl⟩⟩

/-- C9 witness: the hypotheses hold at the concrete 8-bit value 255, and
the theorem applied there shows a per_page of 255 is stored unclamped. -/
theorem no_local_validation_witness :
    (100 < 255 ∧ 255 ≤ 255)
  ∧ (((ReleasesHandler.mk (RepoHandler.mk "owner"
        "repo")).list.set_per_page 255).per_page = some 255) :=
  ⟨by decide,
    ((no_local_validation 255 (by decide) (by decide)).2
      (ReleasesHandler.mk (RepoHandler.mk "owner" "repo")).list).1⟩

end Releases
